import Mathlib

/-!
Shallow embedding of `src/tools/openrouter_config.py`.

The module has two layers:

* `generate_content_with_retry` — performs one HTTP POST to a fixed Ollama
  endpoint, raises on non-200 status, extracts the `response` field of the
  JSON body, and is wrapped in a backoff decorator
  (`max_tries = 5`, `giveup e = "API limit" not in str(e)`).
* `get_chat_completion` — flattens role-tagged chat messages into a prompt
  plus an optional `system_instruction` config entry, calls the layer above,
  and retries (bounded by `max_retries`, delay `initial_retry_delay * 2^attempt`)
  on exceptions and on empty results, returning `None` when all attempts fail.

Exceptions are modelled with `Except String` (the payload is the exception
message `str(e)`); the HTTP transport is an oracle passed in as a function.
Sleeps are not performed but recorded in traces so that the timing claims
can be stated.
-/

/-- `MODEL` constant from the source (line 74). -/
def MODEL : String := "deepseek-r1:7b"

/-- `OLLAMA_API_URL` constant from the source (line 73). -/
def OLLAMA_API_URL : String := "http://localhost:11434/api/generate"

/-- A JSON value as it occurs in the outbound payload: the code only ever
puts strings and a boolean into the request dictionary. -/
inductive JVal where
  | str (s : String)
  | bool (b : Bool)
deriving DecidableEq, Repr

/-- The parts of a `requests` response object that the code consumes:
`status_code`, raw body `text`, and the result of `response.json()` —
either a parse exception or a string-valued JSON object, modelled as an
association list (Python dicts have unique keys). -/
structure HttpResponse where
  status_code : Nat
  text : String
  jsonBody : Except String (List (String × String))

/-- Python's `pat in s` substring test. -/
def containsSubstr (s pat : String) : Bool :=
  decide (pat.data <:+: s.data)

/-- The request payload built at lines 94-98:
`{"model": MODEL, "prompt": prompt, "stream": False}`.
The `config` argument is in scope there but does not occur in the
dictionary literal. -/
def payloadOf (prompt : String) (config : List (String × String)) :
    List (String × JVal) :=
  [("model", JVal.str MODEL), ("prompt", JVal.str prompt),
   ("stream", JVal.bool false)]

/-- The `try` block of `generate_content_with_retry` (lines 88-112) for one
HTTP call.  `post` is the transport: `requests.post` either raises
(`Except.error`) or yields a response.  A non-200 status raises
`Exception(f"API 返回错误: {status_code} - {text}")`; a parse failure of the
body propagates; otherwise `response_data.get("response", "")` is returned. -/
def generateContentBody (post : List (String × JVal) → Except String HttpResponse)
    (prompt : String) (config : List (String × String)) : Except String String :=
  match post (payloadOf prompt config) with
  | Except.error e => Except.error e
  | Except.ok response =>
    if response.status_code ≠ 200 then
      Except.error ("API 返回错误: " ++ toString response.status_code ++ " - "
        ++ response.text)
    else
      match response.jsonBody with
      | Except.error e => Except.error e
      | Except.ok response_data =>
        Except.ok ((response_data.lookup "response").getD "")

/-- One attempt of `generate_content_with_retry` including its `except`
handler (lines 114-121): an error whose message contains `"API limit"`
sleeps 5 seconds and re-raises; every other error re-raises immediately.
The second component records the sleeps performed by the handler. -/
def generateContentAttempt (post : List (String × JVal) → Except String HttpResponse)
    (prompt : String) (config : List (String × String)) :
    Except String String × List Nat :=
  match generateContentBody post prompt config with
  | Except.ok t => (Except.ok t, [])
  | Except.error e =>
    if containsSubstr e "API limit" then (Except.error e, [5])
    else (Except.error e, [])

/-- The `backoff.on_exception` decorator (lines 79-85): call the wrapped
function; on an exception, re-raise it when `giveup` holds or the try
budget is exhausted, otherwise retry.  Returns the final outcome, the
number of calls made, and the concatenated handler sleeps.  `fuel` is the
remaining try budget (`max_tries` initially), `idx` numbers the calls. -/
def backoffRun (step : Nat → Except String String × List Nat)
    (giveup : String → Bool) : Nat → Nat → Except String String × Nat × List Nat
  | 0, _ => (Except.error "", 0, [])
  | fuel + 1, idx =>
    match step idx with
    | (Except.ok t, sl) => (Except.ok t, 1, sl)
    | (Except.error e, sl) =>
      if giveup e then (Except.error e, 1, sl)
      else if fuel = 0 then (Except.error e, 1, sl)
      else
        let r := backoffRun step giveup fuel (idx + 1)
        (r.1, r.2.1 + 1, sl ++ r.2.2)

/-- `generate_content_with_retry` with its decorator
(`max_tries = 5`, `giveup e = "API limit" not in str(e)`).
`post i` is the transport used by the i-th call. -/
def generate_content_with_retry
    (post : Nat → List (String × JVal) → Except String HttpResponse)
    (prompt : String) (config : List (String × String)) :
    Except String String × Nat × List Nat :=
  backoffRun (fun i => generateContentAttempt (post i) prompt config)
    (fun e => !containsSubstr e "API limit") 5 0

/-- A chat message: `{"role": ..., "content": ...}`. -/
structure Message where
  role : String
  content : String
deriving DecidableEq, Repr

/-- The body of the message loop at lines 136-144: a `system` message
overwrites `system_instruction`, `user`/`assistant` messages append a
`User: <content>\n` / `Assistant: <content>\n` line, anything else is
ignored. -/
def convStep (acc : String × Option String) (message : Message) :
    String × Option String :=
  if message.role = "system" then (acc.1, some message.content)
  else if message.role = "user" then
    (acc.1 ++ "User: " ++ message.content ++ "\n", acc.2)
  else if message.role = "assistant" then
    (acc.1 ++ "Assistant: " ++ message.content ++ "\n", acc.2)
  else acc

/-- The message-conversion loop (lines 133-144): starting from
`prompt = ""`, `system_instruction = None`. -/
def buildPromptAndSystem (messages : List Message) : String × Option String :=
  messages.foldl convStep ("", none)

/-- The config derivation at lines 147-149: `config = {}`, then
`config['system_instruction'] = system_instruction` guarded by Python
truthiness (`if system_instruction:`), so `None` and `""` both leave the
config empty. -/
def buildConfig (messages : List Message) : List (String × String) :=
  match (buildPromptAndSystem messages).2 with
  | none => []
  | some system_instruction =>
    if system_instruction = "" then []
    else [("system_instruction", system_instruction)]

/-- Trace of one `get_chat_completion` run: how many times the inner API
caller was invoked, the retry sleeps performed (in seconds), and the
returned value (`none` is Python's `None`). -/
structure RunTrace where
  attempts : Nat
  sleeps : List Nat
  result : Option String
deriving DecidableEq, Repr

/-- The retry loop of `get_chat_completion` (lines 130-181).
`api attempt` is the outcome of the call to `generate_content_with_retry`
on that attempt — an exception or the returned text.  An empty result and
an exception are both retried with sleep `initial_retry_delay * 2^attempt`
while `attempt < max_retries - 1`, otherwise `None` is returned; a
non-empty result is returned immediately.  `fuel` is the number of loop
iterations left (`range(max_retries)` has `max_retries` of them); when it
runs out the function falls off the loop and returns `None`. -/
def chatLoop (api : Nat → Except String String)
    (max_retries initial_retry_delay : Nat) : Nat → Nat → RunTrace
  | 0, _ => ⟨0, [], none⟩
  | fuel + 1, attempt =>
    match api attempt with
    | Except.ok response_text =>
      if response_text = "" then
        if attempt < max_retries - 1 then
          let tr := chatLoop api max_retries initial_retry_delay fuel (attempt + 1)
          ⟨tr.attempts + 1, initial_retry_delay * 2 ^ attempt :: tr.sleeps, tr.result⟩
        else ⟨1, [], none⟩
      else ⟨1, [], some response_text⟩
    | Except.error _ =>
      if attempt < max_retries - 1 then
        let tr := chatLoop api max_retries initial_retry_delay fuel (attempt + 1)
        ⟨tr.attempts + 1, initial_retry_delay * 2 ^ attempt :: tr.sleeps, tr.result⟩
      else ⟨1, [], none⟩

/-- `get_chat_completion(messages, max_retries=3, initial_retry_delay=1)`
(lines 124-185).  `api attempt prompt config` abstracts the call to
`generate_content_with_retry(prompt=prompt.strip(), config=config)` made
on that attempt, so that any behaviour of the underlying API caller —
raising any exception or returning any text — can be quantified over.
`max_retries` is an integer as in Python; `range(max_retries)` is empty
for non-positive values (`Int.toNat`). -/
def get_chat_completion
    (api : Nat → String → List (String × String) → Except String String)
    (messages : List Message) (max_retries : Int) (initial_retry_delay : Nat) :
    RunTrace :=
  chatLoop
    (fun attempt =>
      api attempt (buildPromptAndSystem messages).1.trim (buildConfig messages))
    max_retries.toNat initial_retry_delay max_retries.toNat 0

/-- The full composition of the two layers: the adapter calling the
decorated API caller, with `post attempt i` the transport for the i-th
HTTP call of the given adapter attempt. -/
def get_chat_completion_http
    (post : Nat → Nat → List (String × JVal) → Except String HttpResponse)
    (messages : List Message) (max_retries : Int) (initial_retry_delay : Nat) :
    RunTrace :=
  get_chat_completion
    (fun attempt prompt config =>
      (generate_content_with_retry (post attempt) prompt config).1)
    messages max_retries initial_retry_delay

/-- Spec-side description of one prompt line: user and assistant messages
contribute a line, everything else contributes nothing. -/
def promptLine (m : Message) : Option String :=
  if m.role = "user" then some ("User: " ++ m.content ++ "\n")
  else if m.role = "assistant" then some ("Assistant: " ++ m.content ++ "\n")
  else none

/-- Spec-side description of the assembled prompt (pre-strip): the
in-order concatenation of the lines of the user and assistant messages. -/
def spec_prompt (messages : List Message) : String :=
  (messages.filterMap promptLine).foldr (· ++ ·) ""

/-- Spec-side description: the content of the last message whose role is
`system`, if any. -/
def last_system (messages : List Message) : Option String :=
  ((messages.filter fun m => m.role = "system").map Message.content).getLast?

/-! ### Helper lemmas about the message-conversion loop -/

theorem convStep_fst (acc : String × Option String) (m : Message) :
    (convStep acc m).1 = acc.1 ++ (promptLine m).getD "" := by
  unfold convStep promptLine
  by_cases h1 : m.role = "system"
  · simp [h1]
  · by_cases h2 : m.role = "user"
    · simp [h1, h2, String.append_assoc]
    · by_cases h3 : m.role = "assistant"
      · simp [h1, h2, h3, String.append_assoc]
      · simp [h1, h2, h3]

theorem convStep_snd (acc : String × Option String) (m : Message) :
    (convStep acc m).2 = if m.role = "system" then some m.content else acc.2 := by
  unfold convStep
  by_cases h1 : m.role = "system"
  · simp [h1]
  · by_cases h2 : m.role = "user"
    · simp [h1, h2]
    · by_cases h3 : m.role = "assistant"
      · simp [h1, h2, h3]
      · simp [h1, h2, h3]

theorem foldl_convStep_fst (messages : List Message) :
    ∀ (p : String) (si : Option String),
      (List.foldl convStep (p, si) messages).1 = p ++ spec_prompt messages := by
  induction messages with
  | nil => intro p si; simp [spec_prompt]
  | cons m ms ih =>
    intro p si
    rw [List.foldl_cons]
    have hc : convStep (p, si) m = ((p, si).1 ++ (promptLine m).getD "", (convStep (p, si) m).2) := by
      rw [← convStep_fst]
    rw [hc, ih]
    unfold spec_prompt
    cases h : promptLine m <;>
      simp [h, List.filterMap_cons, String.append_assoc]

theorem foldl_convStep_snd (messages : List Message) :
    ∀ (acc : String × Option String),
      (List.foldl convStep acc messages).2 = (last_system messages).or acc.2 := by
  induction messages using List.reverseRecOn with
  | nil => intro acc; simp [last_system]
  | append_singleton ms m ih =>
    intro acc
    rw [List.foldl_append, List.foldl_cons, List.foldl_nil, convStep_snd]
    by_cases h : m.role = "system"
    · simp [h, last_system, List.filter_append]
    · simp [h, last_system, List.filter_append, ih]

/-- Claim C5: for every message sequence, the prompt assembled by
`get_chat_completion` (before the final strip) is the in-order
concatenation of `"User: <content>\n"` for each user message and
`"Assistant: <content>\n"` for each assistant message; in particular for
`[user:"Hi", assistant:"Hello", user:"Bye"]` it is
`"User: Hi\nAssistant: Hello\nUser: Bye\n"`. -/
theorem prompt_is_ordered_concatenation (messages : List Message) :
    (buildPromptAndSystem messages).1 = spec_prompt messages ∧
      (buildPromptAndSystem
        [⟨"user", "Hi"⟩, ⟨"assistant", "Hello"⟩, ⟨"user", "Bye"⟩]).1 =
        "User: Hi\nAssistant: Hello\nUser: Bye\n" := by
  refine ⟨?_, by decide⟩
  have h := foldl_convStep_fst messages "" none
  simpa [buildPromptAndSystem] using h

/-- Claim C7: for every prompt and every configuration mapping (including
one containing a `system_instruction` key), the JSON payload sent over
HTTP is exactly `{model: MODEL, prompt: <the prompt>, stream: false}`;
the `system_instruction` value is never included in the outbound
request, and the payload does not depend on the configuration at all. -/
theorem payload_never_contains_system_instruction
    (prompt : String) (config : List (String × String)) :
    payloadOf prompt config =
      [("model", JVal.str MODEL), ("prompt", JVal.str prompt),
       ("stream", JVal.bool false)] ∧
    (payloadOf prompt config).lookup "system_instruction" = none ∧
    (∀ config2 : List (String × String), payloadOf prompt config = payloadOf prompt config2) :=
  ⟨rfl, rfl, fun _ => rfl⟩

/-- Claim C8, counterexample: the message list `[{role: "system",
content: ""}]` contains a system message whose (last) content is `""`,
yet the derived configuration does not map `system_instruction` to that
content — Python truthiness (`if system_instruction:`) drops the empty
string. -/
theorem system_instruction_empty_counterexample :
    (Message.mk "system" "").role = "system" ∧
    last_system [Message.mk "system" ""] = some "" ∧
    ¬ ((buildConfig [Message.mk "system" ""]).lookup "system_instruction" =
        some "") := by
  refine ⟨rfl, by decide, by decide⟩

/-- Claim C8, amended: for every message sequence containing at least one
message with role `system`, let `c` be the content of the last such
system message (later system messages overwrite earlier ones).  If `c`
is non-empty, the configuration passed to the API caller maps
`system_instruction` to `c`; if `c` is empty, the key is omitted
(Python truthiness). -/
theorem system_instruction_is_last_system_content
    (messages : List Message) (c : String)
    (hlast : last_system messages = some c) :
    (c ≠ "" →
      (buildConfig messages).lookup "system_instruction" = some c) ∧
    (c = "" →
      (buildConfig messages).lookup "system_instruction" = none) := by
  have h2 := foldl_convStep_snd messages ("", none)
  rw [hlast] at h2
  constructor
  · intro hc
    simp [buildConfig, buildPromptAndSystem, h2, hc, List.lookup]
  · intro hc
    simp [buildConfig, buildPromptAndSystem, h2, hc]

/-- Witness for `system_instruction_is_last_system_content` at the
two-message scenario from the spec. -/
theorem system_instruction_is_last_system_content_witness :
    (buildConfig [Message.mk "system" "Be terse", Message.mk "user" "2+2?"]).lookup
      "system_instruction" = some "Be terse" :=
  (system_instruction_is_last_system_content
    [Message.mk "system" "Be terse", Message.mk "user" "2+2?"] "Be terse"
    (by decide)).1 (by decide)

/-- Claim C9: for every message sequence containing no message with role
`system`, the configuration mapping that `get_chat_completion` passes to
the API caller does not contain the key `system_instruction`. -/
theorem no_system_message_omits_system_instruction
    (messages : List Message) (h : ∀ m ∈ messages, m.role ≠ "system") :
    (buildConfig messages).lookup "system_instruction" = none := by
  have hfilter : messages.filter (fun m => m.role = "system") = [] := by
    rw [List.filter_eq_nil_iff]
    intro a ha
    simp [h a ha]
  have hlast : last_system messages = none := by
    simp [last_system, hfilter]
  have h2 := foldl_convStep_snd messages ("", none)
  rw [hlast] at h2
  simp [buildConfig, buildPromptAndSystem, h2]

/-- Witness for `no_system_message_omits_system_instruction`. -/
theorem no_system_message_omits_system_instruction_witness :
    (buildConfig [Message.mk "user" "Hi"]).lookup "system_instruction" = none :=
  no_system_message_omits_system_instruction [Message.mk "user" "Hi"]
    (by decide)

/-! ### Helper lemmas about the backoff layer -/

theorem containsSubstr_of_parts (a s b m : String)
    (h : m.data = a.data ++ s.data ++ b.data) :
    containsSubstr m s = true := by
  simp only [containsSubstr, decide_eq_true_eq]
  exact ⟨a.data, b.data, h.symm⟩

theorem backoffRun_first_ok (step : Nat → Except String String × List Nat)
    (giveup : String → Bool) (fuel idx : Nat) (t : String) (sl : List Nat)
    (hstep : step idx = (Except.ok t, sl)) :
    backoffRun step giveup (fuel + 1) idx = (Except.ok t, 1, sl) := by
  simp [backoffRun, hstep]

theorem backoffRun_giveup (step : Nat → Except String String × List Nat)
    (giveup : String → Bool) (fuel idx : Nat) (e : String) (sl : List Nat)
    (hstep : step idx = (Except.error e, sl)) (hg : giveup e = true) :
    backoffRun step giveup (fuel + 1) idx = (Except.error e, 1, sl) := by
  simp [backoffRun, hstep, hg]

theorem backoffRun_persistent (step : Nat → Except String String × List Nat)
    (giveup : String → Bool) (m : String) (sl : List Nat)
    (hstep : ∀ i, step i = (Except.error m, sl)) (hg : giveup m = false) :
    ∀ fuel idx, backoffRun step giveup (fuel + 1) idx =
      (Except.error m, fuel + 1, (List.replicate (fuel + 1) sl).flatten) := by
  intro fuel
  induction fuel with
  | zero => intro idx; simp [backoffRun, hstep idx, hg]
  | succ f ih =>
    intro idx
    rw [backoffRun, hstep idx]
    simp only [hg, Bool.false_eq_true, if_false, Nat.succ_ne_zero, ih (idx + 1)]
    simp [List.replicate_succ]

/-- Claim C3: for every HTTP response with status 200 whose JSON body
contains the key `response`, `generate_content_with_retry` returns
exactly that field's value with no transformation; if the 200 body lacks
the `response` key it returns the empty string. -/
theorem response_field_returned_verbatim
    (post : Nat → List (String × JVal) → Except String HttpResponse)
    (prompt : String) (config : List (String × String)) (resp : HttpResponse)
    (response_data : List (String × String))
    (hpost : post 0 (payloadOf prompt config) = Except.ok resp)
    (hstatus : resp.status_code = 200)
    (hjson : resp.jsonBody = Except.ok response_data) :
    (∀ v, response_data.lookup "response" = some v →
      (generate_content_with_retry post prompt config).1 = Except.ok v) ∧
    (response_data.lookup "response" = none →
      (generate_content_with_retry post prompt config).1 = Except.ok "") := by
  have hbody : generateContentBody (post 0) prompt config =
      Except.ok ((response_data.lookup "response").getD "") := by
    simp [generateContentBody, hpost, hstatus, hjson]
  have hatt : generateContentAttempt (post 0) prompt config =
      (Except.ok ((response_data.lookup "response").getD ""), []) := by
    simp [generateContentAttempt, hbody]
  have hrun : (generate_content_with_retry post prompt config).1 =
      Except.ok ((response_data.lookup "response").getD "") := by
    unfold generate_content_with_retry
    rw [backoffRun_first_ok _ _ 4 0 _ _ hatt]
  constructor
  · intro v hv
    rw [hrun, hv]
    rfl
  · intro hv
    rw [hrun, hv]
    rfl

/-- Witness for `response_field_returned_verbatim`: a stub backend
returning `{"response": "4"}` yields `"4"`. -/
theorem response_field_returned_verbatim_witness :
    (generate_content_with_retry
      (fun _ _ => Except.ok ⟨200, "ok", Except.ok [("response", "4")]⟩)
      "User: 2+2?" []).1 = Except.ok "4" :=
  (response_field_returned_verbatim
    (fun _ _ => Except.ok ⟨200, "ok", Except.ok [("response", "4")]⟩)
    "User: 2+2?" [] ⟨200, "ok", Except.ok [("response", "4")]⟩
    [("response", "4")] rfl rfl rfl).1 "4" rfl

/-- Claim C4: for every HTTP response with a status code other than 200
(delivered on every call so that the inner backoff cannot change the
outcome), `generate_content_with_retry` raises an error whose message
contains both the status code and the response body text. -/
theorem non_200_raises_with_status_and_body
    (post : Nat → List (String × JVal) → Except String HttpResponse)
    (prompt : String) (config : List (String × String)) (resp : HttpResponse)
    (hstatus : resp.status_code ≠ 200)
    (hpost : ∀ i, post i (payloadOf prompt config) = Except.ok resp) :
    ∃ m, (generate_content_with_retry post prompt config).1 = Except.error m ∧
      containsSubstr m (toString resp.status_code) = true ∧
      containsSubstr m resp.text = true := by
  refine ⟨"API 返回错误: " ++ toString resp.status_code ++ " - " ++ resp.text,
    ?_, ?_, ?_⟩
  · have hbody : ∀ i, generateContentBody (post i) prompt config =
        Except.error ("API 返回错误: " ++ toString resp.status_code ++ " - "
          ++ resp.text) := by
      intro i
      simp [generateContentBody, hpost i, hstatus]
    by_cases hc : containsSubstr
        ("API 返回错误: " ++ toString resp.status_code ++ " - " ++ resp.text)
        "API limit" = true
    · have hstep : ∀ i, generateContentAttempt (post i) prompt config =
          (Except.error ("API 返回错误: " ++ toString resp.status_code ++ " - "
            ++ resp.text), [5]) := by
        intro i
        simp [generateContentAttempt, hbody i, hc]
      unfold generate_content_with_retry
      rw [backoffRun_persistent _ _ _ [5] hstep (by simp [hc]) 4 0]
    · have hstep : generateContentAttempt (post 0) prompt config =
          (Except.error ("API 返回错误: " ++ toString resp.status_code ++ " - "
            ++ resp.text), []) := by
        simp [generateContentAttempt, hbody 0, hc]
      unfold generate_content_with_retry
      rw [backoffRun_giveup _ _ 4 0 _ _ hstep (by simp [hc])]
  · exact containsSubstr_of_parts "API 返回错误: " (toString resp.status_code)
      (" - " ++ resp.text) _ (by simp [String.data_append])
  · exact containsSubstr_of_parts
      ("API 返回错误: " ++ toString resp.status_code ++ " - ") resp.text "" _
      (by simp [String.data_append])

/-- Witness for `non_200_raises_with_status_and_body` at a concrete 404
response. -/
theorem non_200_raises_with_status_and_body_witness :
    ∃ m, (generate_content_with_retry
        (fun _ _ => Except.ok ⟨404, "not found", Except.ok []⟩) "p" []).1 =
        Except.error m ∧
      containsSubstr m (toString (404 : Nat)) = true ∧
      containsSubstr m "not found" = true :=
  non_200_raises_with_status_and_body
    (fun _ _ => Except.ok ⟨404, "not found", Except.ok []⟩) "p" []
    ⟨404, "not found", Except.ok []⟩ (by decide) (fun _ => rfl)

/-- Claim C6: the backoff layer around `generate_content_with_retry`
retries only errors whose message contains the literal substring
`"API limit"`.  For a transport that persistently raises `e`: when the
message does not contain `"API limit"` the error propagates after a
single call with no handler sleep; when it does, the handler sleeps 5
seconds before each re-raise and the decorator retries up to its 5-try
budget. -/
theorem only_api_limit_errors_are_retried
    (post : Nat → List (String × JVal) → Except String HttpResponse)
    (prompt : String) (config : List (String × String)) (e : String)
    (hpost : ∀ i pl, post i pl = Except.error e) :
    (containsSubstr e "API limit" = false →
      generate_content_with_retry post prompt config =
        (Except.error e, 1, [])) ∧
    (containsSubstr e "API limit" = true →
      generate_content_with_retry post prompt config =
        (Except.error e, 5, [5, 5, 5, 5, 5])) := by
  have hbody : ∀ i, generateContentBody (post i) prompt config =
      Except.error e := by
    intro i
    simp [generateContentBody, hpost]
  constructor
  · intro hc
    have hatt : generateContentAttempt (post 0) prompt config =
        (Except.error e, []) := by
      simp [generateContentAttempt, hbody 0, hc]
    unfold generate_content_with_retry
    rw [backoffRun_giveup _ _ 4 0 e [] hatt (by simp [hc])]
  · intro hc
    have hatt : ∀ i, generateContentAttempt (post i) prompt config =
        (Except.error e, [5]) := by
      intro i
      simp [generateContentAttempt, hbody i, hc]
    unfold generate_content_with_retry
    rw [backoffRun_persistent _ _ e [5] hatt (by simp [hc]) 4 0]
    rfl

/-- Witness for `only_api_limit_errors_are_retried`: both branches at
concrete error messages. -/
theorem only_api_limit_errors_are_retried_witness :
    generate_content_with_retry (fun _ _ => Except.error "connection refused")
      "p" [] = (Except.error "connection refused", 1, []) ∧
    generate_content_with_retry (fun _ _ => Except.error "hit API limit")
      "p" [] = (Except.error "hit API limit", 5, [5, 5, 5, 5, 5]) :=
  ⟨(only_api_limit_errors_are_retried
      (fun _ _ => Except.error "connection refused") "p" [] "connection refused"
      (fun _ _ => rfl)).1 (by decide),
   (only_api_limit_errors_are_retried
      (fun _ _ => Except.error "hit API limit") "p" [] "hit API limit"
      (fun _ _ => rfl)).2 (by decide)⟩

/-! ### Helper lemma about the adapter retry loop -/

theorem chatLoop_spec (api : Nat → Except String String) (mr d : Nat) :
    ∀ fuel attempt,
      (chatLoop api mr d fuel attempt).attempts ≤ fuel ∧
      ((chatLoop api mr d fuel attempt).result = none ∨
        ∃ t, t ≠ "" ∧ (chatLoop api mr d fuel attempt).result = some t ∧
          ∃ i, api i = Except.ok t) := by
  intro fuel
  induction fuel with
  | zero =>
    intro attempt
    exact ⟨Nat.le_refl 0, Or.inl rfl⟩
  | succ fuel ih =>
    intro attempt
    have hrec := ih (attempt + 1)
    cases h : api attempt with
    | error e =>
      simp only [chatLoop, h]
      by_cases hlt : attempt < mr - 1
      · rw [if_pos hlt]
        exact ⟨Nat.succ_le_succ hrec.1, hrec.2⟩
      · rw [if_neg hlt]
        exact ⟨Nat.succ_le_succ (Nat.zero_le fuel), Or.inl rfl⟩
    | ok t =>
      simp only [chatLoop, h]
      by_cases ht : t = ""
      · rw [if_pos ht]
        by_cases hlt : attempt < mr - 1
        · rw [if_pos hlt]
          exact ⟨Nat.succ_le_succ hrec.1, hrec.2⟩
        · rw [if_neg hlt]
          exact ⟨Nat.succ_le_succ (Nat.zero_le fuel), Or.inl rfl⟩
      · rw [if_neg ht]
        exact ⟨Nat.succ_le_succ (Nat.zero_le fuel),
          Or.inr ⟨t, ht, rfl, attempt, h⟩⟩

/-- Claim C1: for every message sequence and every behaviour of the
underlying API caller (raising any exception, or returning any text),
`get_chat_completion` never raises an exception to its caller: it always
produces a value, making at most `max_retries` attempts, and that value
is either the absent `none` (covering every failure) or a non-empty text
successfully returned by the API caller. -/
theorem get_chat_completion_never_raises
    (api : Nat → String → List (String × String) → Except String String)
    (messages : List Message) (max_retries : Int) (initial_retry_delay : Nat) :
    (get_chat_completion api messages max_retries initial_retry_delay).attempts ≤
      max_retries.toNat ∧
    ((get_chat_completion api messages max_retries initial_retry_delay).result =
        none ∨
      ∃ t, t ≠ "" ∧
        (get_chat_completion api messages max_retries initial_retry_delay).result =
          some t ∧
        ∃ i, api i (buildPromptAndSystem messages).1.trim (buildConfig messages) =
          Except.ok t) :=
  chatLoop_spec _ max_retries.toNat initial_retry_delay max_retries.toNat 0

/-- Claim C2: for a backend that fails on every attempt (each call raises
or returns empty text), `get_chat_completion` with `max_retries = 3` and
`initial_retry_delay = 1` makes exactly 3 attempts, sleeping 1s then 2s
between consecutive attempts (no sleep after the final one), and returns
`None`; with `max_retries = 1` it makes exactly one attempt with no sleep
and returns `None`. -/
theorem get_chat_completion_retry_bound
    (api : Nat → String → List (String × String) → Except String String)
    (messages : List Message)
    (hfail : ∀ i p c, api i p c = Except.ok "" ∨ ∃ e, api i p c = Except.error e) :
    get_chat_completion api messages 3 1 = ⟨3, [1, 2], none⟩ ∧
    get_chat_completion api messages 1 1 = ⟨1, [], none⟩ := by
  have h0 := hfail 0 ((buildPromptAndSystem messages).1.trim) (buildConfig messages)
  have h1 := hfail 1 ((buildPromptAndSystem messages).1.trim) (buildConfig messages)
  have h2 := hfail 2 ((buildPromptAndSystem messages).1.trim) (buildConfig messages)
  constructor
  · unfold get_chat_completion
    rcases h0 with h0 | ⟨e0, h0⟩ <;> rcases h1 with h1 | ⟨e1, h1⟩ <;>
      rcases h2 with h2 | ⟨e2, h2⟩ <;>
      simp [chatLoop, h0, h1, h2]
  · unfold get_chat_completion
    rcases h0 with h0 | ⟨e0, h0⟩ <;> simp [chatLoop, h0]

/-- Witness for `get_chat_completion_retry_bound`: a backend that always
returns empty text. -/
theorem get_chat_completion_retry_bound_witness :
    get_chat_completion (fun _ _ _ => Except.ok "") [] 3 1 = ⟨3, [1, 2], none⟩ ∧
    get_chat_completion (fun _ _ _ => Except.ok "") [] 1 1 = ⟨1, [], none⟩ :=
  get_chat_completion_retry_bound (fun _ _ _ => Except.ok "") []
    (fun _ _ _ => Or.inl rfl)

/-- Claim C10: for every message sequence, calling `get_chat_completion`
with `max_retries` equal to 0 or any non-positive value returns `None`
without invoking the API caller at all: zero attempts, no sleeps. -/
theorem nonpositive_max_retries_makes_no_attempts
    (api : Nat → String → List (String × String) → Except String String)
    (messages : List Message) (max_retries : Int) (initial_retry_delay : Nat)
    (h : max_retries ≤ 0) :
    get_chat_completion api messages max_retries initial_retry_delay =
      ⟨0, [], none⟩ := by
  unfold get_chat_completion
  rw [Int.toNat_of_nonpos h]
  rfl

/-- Witness for `nonpositive_max_retries_makes_no_attempts` at
`max_retries = -2`, with an API caller that would succeed if invoked. -/
theorem nonpositive_max_retries_makes_no_attempts_witness :
    get_chat_completion (fun _ _ _ => Except.ok "hi") [] (-2) 1 =
      ⟨0, [], none⟩ :=
  nonpositive_max_retries_makes_no_attempts (fun _ _ _ => Except.ok "hi") []
    (-2) 1 (by decide)
